import Mathlib

/-
Shallow embedding of the bb8-rusqlite adapter (src/lib.rs): a bb8
ManageConnection implementation for rusqlite connections.

Modelling choices:
  - Filesystem paths (PathBuf) are Strings.
  - rusqlite::OpenFlags is a Nat bitset; bit 0 is SQLITE_OPEN_READ_ONLY,
    matching the SQLite flag value 0x00000001.
  - The Arc<ConnectionOptions> allocation of RusqliteConnectionManager is
    modelled explicitly with a Store (heap of options cells plus reference
    counts), so that sharing and absence of deep copies are provable.
  - The external rusqlite driver is reached through a Driver record of the
    calls the adapter consumes (open, open_with_flags,
    open_with_flags_and_vfs, execute).
  - tokio's spawn_blocking is modelled by a WorkerFate parameter: the
    worker thread either runs the closure to completion or terminates
    abnormally with a JoinError before returning.
-/

set_option autoImplicit false

namespace BB8Rusqlite

/-- OpenFlags bitset from rusqlite, modelled as a Nat of flag bits. -/
abbrev OpenFlags := Nat

/-- SQLITE_OPEN_READ_ONLY flag bit (value 0x00000001 in SQLite). -/
def SQLITE_OPEN_READ_ONLY : OpenFlags := 1

/-- Open mode stored by the manager: the OpenMode enum of src/lib.rs. -/
inductive OpenMode where
  | Plain
  | WithFlags (flags : OpenFlags)
  | WithFlagsAndVFS (flags : OpenFlags) (vfs : String)
deriving DecidableEq, Repr

/-- ConnectionOptions struct of src/lib.rs: an open mode plus a path. -/
structure ConnectionOptions where
  mode : OpenMode
  path : String
deriving DecidableEq, Repr

/-- Opaque handle to one open database connection (rusqlite::Connection). -/
structure Connection where
  id : Nat
deriving DecidableEq, Repr

/-- Driver-side error (abstracts rusqlite::Error; per the spec a driver
error carries the native code and message). -/
structure RusqliteError where
  code : Nat
  message : String
deriving DecidableEq, Repr

/-- Abnormal termination of a tokio worker task (tokio::task::JoinError):
the task panicked or was cancelled before completing. -/
inductive JoinError where
  | panicked
  | cancelled
deriving DecidableEq, Repr

/-- Error enum of src/lib.rs: wraps errors from both rusqlite and tokio. -/
inductive Error where
  | Rusqlite (e : RusqliteError)
  | TokioJoin (e : JoinError)
deriving DecidableEq, Repr

/-- Heap of Arc<ConnectionOptions> allocations: cell contents, reference
counts and the next fresh address. -/
structure Store where
  cells : Nat → ConnectionOptions
  refcount : Nat → Nat
  next : Nat

/-- Allocate a fresh reference-counted cell (Arc::new). -/
def Store.alloc (st : Store) (v : ConnectionOptions) : Nat × Store :=
  (st.next,
   { cells := fun a => if a = st.next then v else st.cells a,
     refcount := fun a => if a = st.next then 1 else st.refcount a,
     next := st.next + 1 })

/-- A shared reference-counted pointer to a ConnectionOptions cell. -/
structure Arc where
  addr : Nat
deriving DecidableEq, Repr

/-- Arc::clone: a new pointer to the same cell; only the reference count
changes, the cell contents are untouched. -/
def Arc.clone (r : Arc) (st : Store) : Arc × Store :=
  (⟨r.addr⟩,
   { st with refcount := fun a => if a = r.addr then st.refcount a + 1 else st.refcount a })

/-- Dropping one Arc pointer decrements the reference count of its cell. -/
def Arc.drop (r : Arc) (st : Store) : Store :=
  { st with refcount := fun a => if a = r.addr then st.refcount a - 1 else st.refcount a }

/-- Read the ConnectionOptions behind an Arc pointer. -/
def Arc.deref (st : Store) (r : Arc) : ConnectionOptions :=
  st.cells r.addr

/-- RusqliteConnectionManager of src/lib.rs: a one-field struct holding an
Arc<ConnectionOptions>. -/
structure RusqliteConnectionManager where
  arc : Arc
deriving DecidableEq, Repr

/-- Calls the adapter consumes from the external rusqlite driver
(spec section 6). The field open_ stands for rusqlite::Connection::open,
whose name is a Lean keyword. -/
structure Driver where
  open_ : String → Except RusqliteError Connection
  open_with_flags : String → OpenFlags → Except RusqliteError Connection
  open_with_flags_and_vfs : String → OpenFlags → String → Except RusqliteError Connection
  execute : Connection → String → List Nat → Except RusqliteError Nat

/-- Fate of the spawn_blocking worker thread: it either runs the closure to
completion or terminates abnormally first. -/
inductive WorkerFate where
  | runs
  | aborts (e : JoinError)
deriving DecidableEq, Repr

/-- tokio::task::spawn_blocking followed by .await: yields the closure's
result, or a JoinError when the worker terminated abnormally. -/
def spawn_blocking {α : Type} (fate : WorkerFate) (f : Unit → α) : Except JoinError α :=
  match fate with
  | .runs => .ok (f ())
  | .aborts e => .error e

/-- tokio::task::block_in_place: runs the blocking closure in place on the
calling thread and returns its result. -/
def block_in_place {α : Type} (f : Unit → α) : α :=
  f ()

/-- RusqliteConnectionManager::new: stores OpenMode::Plain and the path
behind a fresh Arc. -/
def RusqliteConnectionManager.new (path : String) (st : Store) :
    RusqliteConnectionManager × Store :=
  let r := st.alloc { mode := .Plain, path := path }
  (⟨⟨r.1⟩⟩, r.2)

/-- RusqliteConnectionManager::new_with_flags: stores OpenMode::WithFlags
and the path behind a fresh Arc. -/
def RusqliteConnectionManager.new_with_flags (path : String) (flags : OpenFlags) (st : Store) :
    RusqliteConnectionManager × Store :=
  let r := st.alloc { mode := .WithFlags flags, path := path }
  (⟨⟨r.1⟩⟩, r.2)

/-- RusqliteConnectionManager::new_with_flags_and_vfs: stores
OpenMode::WithFlagsAndVFS (copying the vfs name) and the path behind a
fresh Arc. -/
def RusqliteConnectionManager.new_with_flags_and_vfs
    (path : String) (flags : OpenFlags) (vfs : String) (st : Store) :
    RusqliteConnectionManager × Store :=
  let r := st.alloc { mode := .WithFlagsAndVFS flags vfs, path := path }
  (⟨⟨r.1⟩⟩, r.2)

/-- Clone derived on RusqliteConnectionManager: clones the inner Arc. -/
def RusqliteConnectionManager.clone (self : RusqliteConnectionManager) (st : Store) :
    RusqliteConnectionManager × Store :=
  let r := self.arc.clone st
  (⟨r.1⟩, r.2)

/-- Body of the closure passed to spawn_blocking in connect: match on the
stored mode and make the corresponding driver open call. -/
def openByMode (drv : Driver) (options : ConnectionOptions) : Except RusqliteError Connection :=
  match options.mode with
  | .Plain => drv.open_ options.path
  | .WithFlags flags => drv.open_with_flags options.path flags
  | .WithFlagsAndVFS flags vfs => drv.open_with_flags_and_vfs options.path flags vfs

/-- connect of the ManageConnection impl: clones the options Arc into a
spawn_blocking closure, opens by mode on the worker thread, converts both
error layers with the two trailing question marks, and drops the cloned
Arc when the closure is done. Returns the result together with the store
left behind. -/
def RusqliteConnectionManager.connect
    (drv : Driver) (fate : WorkerFate) (self : RusqliteConnectionManager) (st : Store) :
    Except Error Connection × Store :=
  let cloned := self.arc.clone st
  let options := cloned.1
  let st1 := cloned.2
  let joined := spawn_blocking fate (fun _ => openByMode drv (Arc.deref st1 options))
  let st2 := options.drop st1
  (match joined with
   | .error e => .error (.TokioJoin e)
   | .ok (.error e) => .error (.Rusqlite e)
   | .ok (.ok conn) => .ok conn,
   st2)

/-- is_valid of the ManageConnection impl: runs the trivial query
SELECT 1 with no parameters through the handle via block_in_place, in
place on the calling thread; the question mark wraps a driver failure,
success discards the row count and returns unit. -/
def RusqliteConnectionManager.is_valid
    (drv : Driver) (_self : RusqliteConnectionManager) (conn : Connection) :
    Except Error Unit :=
  match block_in_place (fun _ => drv.execute conn "SELECT 1" []) with
  | .error e => .error (.Rusqlite e)
  | .ok _ => .ok ()

/-- has_broken of the ManageConnection impl: constant false, no dispatch,
no driver access. -/
def RusqliteConnectionManager.has_broken
    (_self : RusqliteConnectionManager) (_conn : Connection) : Bool :=
  false

/-- Modelled from the spec: the external SQLite driver (the rusqlite crate,
not part of this repository) as consumed through the contract of spec
section 6, restricted to what the spec states: a plain open uses
read-write-create defaults and succeeds; an open carrying the read-only
access flag against a location absent from the filesystem fails with a
driver error (spec sections 4.1, 8); an unregistered backend name fails;
the trivial liveness probe succeeds on an open connection. The filesystem
is the list of existing locations, the registry the list of registered
backend names. -/
def sqliteDriver (fs : List String) (registry : List String) : Driver where
  open_ := fun _ => .ok ⟨0⟩
  open_with_flags := fun p f =>
    if f.testBit 0 && !(fs.contains p) then
      .error ⟨14, "unable to open database file"⟩
    else
      .ok ⟨0⟩
  open_with_flags_and_vfs := fun p f v =>
    if !(registry.contains v) then
      .error ⟨21, "no such vfs"⟩
    else if f.testBit 0 && !(fs.contains p) then
      .error ⟨14, "unable to open database file"⟩
    else
      .ok ⟨0⟩
  execute := fun _ _ _ => .ok 0

/-- Modelled from the spec: the external pool framework (bb8, not part of
this repository) requests a connection by invoking the manager's connect
and propagating any error to the requester (spec sections 1, 6, 7). -/
def poolRequest
    (drv : Driver) (fate : WorkerFate) (self : RusqliteConnectionManager) (st : Store) :
    Except Error Connection × Store :=
  self.connect drv fate st

/-- Does the stored open mode carry the read-only access flag? Plain mode
carries no flags at all. -/
def OpenMode.readOnly : OpenMode → Bool
  | .Plain => false
  | .WithFlags flags => flags.testBit 0
  | .WithFlagsAndVFS flags _ => flags.testBit 0

/-- An empty store for concrete evaluations. -/
def emptyStore : Store :=
  { cells := fun _ => { mode := .Plain, path := "" },
    refcount := fun _ => 0,
    next := 0 }

/-- Helper: with a successful worker, a driver-error result of the
selected open call propagates through connect as the Rusqlite variant. -/
theorem connect_runs_error_of_open_error
    (drv : Driver) (self : RusqliteConnectionManager) (st : Store) (e : RusqliteError)
    (h : openByMode drv (Arc.deref st self.arc) = .error e) :
    (self.connect drv .runs st).1 = .error (.Rusqlite e) := by
  simp only [Arc.deref] at h
  simp [RusqliteConnectionManager.connect, Arc.clone, Arc.deref, spawn_blocking, h]

/-- Helper: the options cell stored by new. -/
theorem deref_new (p : String) (st : Store) :
    Arc.deref (RusqliteConnectionManager.new p st).2
      (RusqliteConnectionManager.new p st).1.arc
    = { mode := .Plain, path := p } := by
  simp [RusqliteConnectionManager.new, Store.alloc, Arc.deref]

/-- Helper: the options cell stored by new_with_flags. -/
theorem deref_new_with_flags (p : String) (f : OpenFlags) (st : Store) :
    Arc.deref (RusqliteConnectionManager.new_with_flags p f st).2
      (RusqliteConnectionManager.new_with_flags p f st).1.arc
    = { mode := .WithFlags f, path := p } := by
  simp [RusqliteConnectionManager.new_with_flags, Store.alloc, Arc.deref]

/-- Helper: the options cell stored by new_with_flags_and_vfs. -/
theorem deref_new_with_flags_and_vfs (p : String) (f : OpenFlags) (v : String) (st : Store) :
    Arc.deref (RusqliteConnectionManager.new_with_flags_and_vfs p f v st).2
      (RusqliteConnectionManager.new_with_flags_and_vfs p f v st).1.arc
    = { mode := .WithFlagsAndVFS f v, path := p } := by
  simp [RusqliteConnectionManager.new_with_flags_and_vfs, Store.alloc, Arc.deref]

/-- Helper: the modelled SQLite driver rejects any open whose mode carries
the read-only flag when the location is absent from the filesystem. -/
theorem openByMode_sqlite_readonly_fails
    (fs registry : List String) (opts : ConnectionOptions)
    (hro : opts.mode.readOnly = true) (habs : fs.contains opts.path = false) :
    ∃ e, openByMode (sqliteDriver fs registry) opts = .error e := by
  have habs2 : opts.path ∉ fs := by simpa using habs
  cases hm : opts.mode with
  | Plain => rw [hm] at hro; exact absurd hro (by simp [OpenMode.readOnly])
  | WithFlags flags =>
    rw [hm] at hro
    simp only [OpenMode.readOnly] at hro
    have hro2 : flags % 2 = 1 := by simpa using hro
    exact ⟨⟨14, "unable to open database file"⟩,
      by simp [openByMode, sqliteDriver, hm, hro2, habs2]⟩
  | WithFlagsAndVFS flags vfs =>
    rw [hm] at hro
    simp only [OpenMode.readOnly] at hro
    have hro2 : flags % 2 = 1 := by simpa using hro
    by_cases hreg : vfs ∈ registry
    · exact ⟨⟨14, "unable to open database file"⟩,
        by simp [openByMode, sqliteDriver, hm, hro2, habs2, hreg]⟩
    · exact ⟨⟨21, "no such vfs"⟩,
        by simp [openByMode, sqliteDriver, hm, hreg]⟩

/-- C1: has_broken returns false for every manager and every connection
handle; it is a total Bool-valued function that takes no driver, so it
cannot fail and performs no I/O, leaving liveness detection to is_valid. -/
theorem has_broken_always_false (m : RusqliteConnectionManager) (c : Connection) :
    m.has_broken c = false :=
  rfl

/-- C2: connect opens exactly one new connection from the stored options,
selecting the driver call by the stored OpenMode variant: Plain uses open,
WithFlags uses open_with_flags, WithFlagsAndVFS uses
open_with_flags_and_vfs; on success the freshly opened handle is returned,
and the result depends only on the selected call's outcome. -/
theorem connect_selects_driver_call
    (drv : Driver) (self : RusqliteConnectionManager) (st : Store)
    (opts : ConnectionOptions) (hopts : Arc.deref st self.arc = opts) (c : Connection) :
    (opts.mode = OpenMode.Plain → drv.open_ opts.path = .ok c →
      (self.connect drv .runs st).1 = .ok c) ∧
    (∀ flags, opts.mode = OpenMode.WithFlags flags →
      drv.open_with_flags opts.path flags = .ok c →
      (self.connect drv .runs st).1 = .ok c) ∧
    (∀ flags vfs, opts.mode = OpenMode.WithFlagsAndVFS flags vfs →
      drv.open_with_flags_and_vfs opts.path flags vfs = .ok c →
      (self.connect drv .runs st).1 = .ok c) ∧
    (∀ drv2 : Driver, openByMode drv2 opts = openByMode drv opts →
      (self.connect drv2 .runs st).1 = (self.connect drv .runs st).1) := by
  simp only [Arc.deref] at hopts
  refine ⟨?_, ?_, ?_, ?_⟩
  · intro hmode hopen
    simp [RusqliteConnectionManager.connect, Arc.clone, Arc.deref, spawn_blocking,
      openByMode, hopts, hmode, hopen]
  · intro flags hmode hopen
    simp [RusqliteConnectionManager.connect, Arc.clone, Arc.deref, spawn_blocking,
      openByMode, hopts, hmode, hopen]
  · intro flags vfs hmode hopen
    simp [RusqliteConnectionManager.connect, Arc.clone, Arc.deref, spawn_blocking,
      openByMode, hopts, hmode, hopen]
  · intro drv2 hsame
    simp [RusqliteConnectionManager.connect, Arc.clone, Arc.deref, spawn_blocking,
      hopts, hsame]

/-- C2 witness: a concrete manager with mode WithFlags 0 connected through
the model driver yields exactly the handle the selected open call
produced. -/
theorem connect_selects_driver_call_witness :
    ((RusqliteConnectionManager.new_with_flags "a.db" 0 emptyStore).1.connect
      (sqliteDriver [] []) .runs
      (RusqliteConnectionManager.new_with_flags "a.db" 0 emptyStore).2).1 = .ok ⟨0⟩ :=
  (connect_selects_driver_call (sqliteDriver [] [])
    (RusqliteConnectionManager.new_with_flags "a.db" 0 emptyStore).1
    (RusqliteConnectionManager.new_with_flags "a.db" 0 emptyStore).2
    { mode := .WithFlags 0, path := "a.db" } rfl ⟨0⟩).2.1 0 rfl rfl

/-- C3: connect fails with the Rusqlite variant exactly when the selected
open call fails (the error propagated verbatim), fails with the TokioJoin
variant exactly when the worker terminates abnormally, and never mixes the
two; no error is swallowed. -/
theorem connect_error_taxonomy
    (drv : Driver) (self : RusqliteConnectionManager) (st : Store)
    (opts : ConnectionOptions) (hopts : Arc.deref st self.arc = opts) :
    (∀ e, (self.connect drv .runs st).1 = .error (.Rusqlite e) ↔
      openByMode drv opts = .error e) ∧
    (∀ j, (self.connect drv (.aborts j) st).1 = .error (.TokioJoin j)) ∧
    (∀ j, (self.connect drv .runs st).1 ≠ .error (.TokioJoin j)) ∧
    (∀ j e, (self.connect drv (.aborts j) st).1 ≠ .error (.Rusqlite e)) := by
  simp only [Arc.deref] at hopts
  refine ⟨?_, ?_, ?_, ?_⟩
  · intro e
    cases h : openByMode drv opts with
    | ok conn =>
      simp [RusqliteConnectionManager.connect, Arc.clone, Arc.deref, spawn_blocking,
        hopts, h]
    | error e2 =>
      simp [RusqliteConnectionManager.connect, Arc.clone, Arc.deref, spawn_blocking,
        hopts, h]
  · intro j
    simp [RusqliteConnectionManager.connect, Arc.clone, Arc.deref, spawn_blocking]
  · intro j
    cases h : openByMode drv opts with
    | ok conn =>
      simp [RusqliteConnectionManager.connect, Arc.clone, Arc.deref, spawn_blocking,
        hopts, h]
    | error e2 =>
      simp [RusqliteConnectionManager.connect, Arc.clone, Arc.deref, spawn_blocking,
        hopts, h]
  · intro j e
    simp [RusqliteConnectionManager.connect, Arc.clone, Arc.deref, spawn_blocking]

/-- C3 witness: with the model driver, a read-only manager on a missing
location yields the driver error through the Rusqlite variant, and an
aborted worker yields the TokioJoin variant. -/
theorem connect_error_taxonomy_witness :
    (((RusqliteConnectionManager.new_with_flags "m.db" 1 emptyStore).1.connect
        (sqliteDriver [] []) .runs
        (RusqliteConnectionManager.new_with_flags "m.db" 1 emptyStore).2).1
      = .error (.Rusqlite ⟨14, "unable to open database file"⟩)) ∧
    (((RusqliteConnectionManager.new_with_flags "m.db" 1 emptyStore).1.connect
        (sqliteDriver [] []) (.aborts .panicked)
        (RusqliteConnectionManager.new_with_flags "m.db" 1 emptyStore).2).1
      = .error (.TokioJoin .panicked)) :=
  ⟨((connect_error_taxonomy (sqliteDriver [] [])
      (RusqliteConnectionManager.new_with_flags "m.db" 1 emptyStore).1
      (RusqliteConnectionManager.new_with_flags "m.db" 1 emptyStore).2
      { mode := .WithFlags 1, path := "m.db" } rfl).1
      ⟨14, "unable to open database file"⟩).mpr rfl,
   (connect_error_taxonomy (sqliteDriver [] [])
      (RusqliteConnectionManager.new_with_flags "m.db" 1 emptyStore).1
      (RusqliteConnectionManager.new_with_flags "m.db" 1 emptyStore).2
      { mode := .WithFlags 1, path := "m.db" } rfl).2.1 .panicked⟩

/-- C4: is_valid issues the single trivial query SELECT 1 with no
parameters through the handle and returns unit exactly when that query
succeeds; any failure is reported through the Rusqlite variant, never
through TokioJoin. -/
theorem is_valid_roundtrip
    (drv : Driver) (self : RusqliteConnectionManager) (conn : Connection) :
    (self.is_valid drv conn = .ok () ↔ ∃ n, drv.execute conn "SELECT 1" [] = .ok n) ∧
    (∀ e, self.is_valid drv conn = .error (.Rusqlite e) ↔
      drv.execute conn "SELECT 1" [] = .error e) ∧
    (∀ j, self.is_valid drv conn ≠ .error (.TokioJoin j)) := by
  refine ⟨?_, ?_, ?_⟩
  · cases h : drv.execute conn "SELECT 1" [] with
    | ok n => simp [RusqliteConnectionManager.is_valid, block_in_place, h]
    | error e => simp [RusqliteConnectionManager.is_valid, block_in_place, h]
  · intro e
    cases h : drv.execute conn "SELECT 1" [] with
    | ok n => simp [RusqliteConnectionManager.is_valid, block_in_place, h]
    | error e2 => simp [RusqliteConnectionManager.is_valid, block_in_place, h]
  · intro j
    cases h : drv.execute conn "SELECT 1" [] with
    | ok n => simp [RusqliteConnectionManager.is_valid, block_in_place, h]
    | error e2 => simp [RusqliteConnectionManager.is_valid, block_in_place, h]

/-- C5: for every stored open mode carrying the read-only access flag
(Plain can carry none), connect through the modelled SQLite driver against
a location absent from the filesystem fails with the Rusqlite (driver
error) variant, and the framework-level pool request fails
correspondingly. -/
theorem connect_readonly_nonexistent_fails
    (fs registry : List String) (self : RusqliteConnectionManager) (st : Store)
    (opts : ConnectionOptions) (hopts : Arc.deref st self.arc = opts)
    (hro : opts.mode.readOnly = true)
    (habs : fs.contains opts.path = false) :
    (∃ e, (self.connect (sqliteDriver fs registry) .runs st).1 = .error (.Rusqlite e)) ∧
    (∃ e, (poolRequest (sqliteDriver fs registry) .runs self st).1 = .error (.Rusqlite e)) := by
  obtain ⟨e, he⟩ := openByMode_sqlite_readonly_fails fs registry opts hro habs
  have hconn :
      (self.connect (sqliteDriver fs registry) .runs st).1 = .error (.Rusqlite e) :=
    connect_runs_error_of_open_error (sqliteDriver fs registry) self st e
      (by rw [hopts]; exact he)
  exact ⟨⟨e, hconn⟩, ⟨e, hconn⟩⟩

/-- C5 witness: a concrete read-only manager on a missing location fails
with a driver error both at connect and at the pool request. -/
theorem connect_readonly_nonexistent_fails_witness :
    (∃ e, ((RusqliteConnectionManager.new_with_flags "missing.db" 1 emptyStore).1.connect
        (sqliteDriver [] ["unix"]) .runs
        (RusqliteConnectionManager.new_with_flags "missing.db" 1 emptyStore).2).1
      = .error (.Rusqlite e)) ∧
    (∃ e, (poolRequest (sqliteDriver [] ["unix"]) .runs
        (RusqliteConnectionManager.new_with_flags "missing.db" 1 emptyStore).1
        (RusqliteConnectionManager.new_with_flags "missing.db" 1 emptyStore).2).1
      = .error (.Rusqlite e)) :=
  connect_readonly_nonexistent_fails [] ["unix"]
    (RusqliteConnectionManager.new_with_flags "missing.db" 1 emptyStore).1
    (RusqliteConnectionManager.new_with_flags "missing.db" 1 emptyStore).2
    { mode := .WithFlags 1, path := "missing.db" } rfl rfl rfl

/-- C6: cloning a manager yields a pointer to the very same options
allocation: same address, no cell is copied or changed, no new cell is
allocated (next is unchanged), and the shared cell's reference count goes
up by one. -/
theorem clone_shares_options_allocation (m : RusqliteConnectionManager) (st : Store) :
    ((m.clone st).1.arc.addr = m.arc.addr) ∧
    ((m.clone st).2.cells = st.cells) ∧
    ((m.clone st).2.next = st.next) ∧
    ((m.clone st).2.refcount m.arc.addr = st.refcount m.arc.addr + 1) := by
  refine ⟨rfl, rfl, rfl, ?_⟩
  simp [RusqliteConnectionManager.clone, Arc.clone]

/-- C7: exactly one OpenMode variant is active for any stored options, and
no operation that touches the store (clone, connect) ever changes any
stored options cell, so the location and variant chosen at construction
are never mutated; is_valid and has_broken take no store at all. -/
theorem options_immutable_after_construction
    (m : RusqliteConnectionManager) (st : Store) (drv : Driver) (fate : WorkerFate) :
    (∀ o : OpenMode,
      (o = .Plain ∨ (∃ f, o = .WithFlags f) ∨ (∃ f v, o = .WithFlagsAndVFS f v)) ∧
      ¬(o = .Plain ∧ ∃ f, o = .WithFlags f) ∧
      ¬(o = .Plain ∧ ∃ f v, o = .WithFlagsAndVFS f v) ∧
      ¬((∃ f, o = .WithFlags f) ∧ ∃ f v, o = .WithFlagsAndVFS f v)) ∧
    (∀ r : Arc, Arc.deref (m.clone st).2 r = Arc.deref st r) ∧
    (∀ r : Arc, Arc.deref (m.connect drv fate st).2 r = Arc.deref st r) := by
  refine ⟨?_, fun r => rfl, fun r => rfl⟩
  intro o
  cases o with
  | Plain => simp
  | WithFlags f => simp
  | WithFlagsAndVFS f v => simp

/-- C8: each builder stores exactly the given location with the matching
variant shape: new stores Plain, new_with_flags stores WithFlags with the
given flags, new_with_flags_and_vfs stores WithFlagsAndVFS with the given
flags and a copy of the given backend name. -/
theorem constructors_store_given_options
    (p : String) (f : OpenFlags) (v : String) (st : Store) :
    (Arc.deref (RusqliteConnectionManager.new p st).2
        (RusqliteConnectionManager.new p st).1.arc
      = { mode := .Plain, path := p }) ∧
    (Arc.deref (RusqliteConnectionManager.new_with_flags p f st).2
        (RusqliteConnectionManager.new_with_flags p f st).1.arc
      = { mode := .WithFlags f, path := p }) ∧
    (Arc.deref (RusqliteConnectionManager.new_with_flags_and_vfs p f v st).2
        (RusqliteConnectionManager.new_with_flags_and_vfs p f v st).1.arc
      = { mode := .WithFlagsAndVFS f v, path := p }) :=
  ⟨deref_new p st, deref_new_with_flags p f st, deref_new_with_flags_and_vfs p f v st⟩

/-- C10: all three constructors are total: they succeed on every path,
flags and backend-name argument over any store, consult no driver, and
validate nothing; a configuration error (read-only flag with a missing
location) surfaces only later, from connect. -/
theorem constructors_total_no_io
    (p : String) (f : OpenFlags) (v : String) (st : Store) (fs registry : List String) :
    (∃ m st2, RusqliteConnectionManager.new p st = (m, st2)) ∧
    (∃ m st2, RusqliteConnectionManager.new_with_flags p f st = (m, st2)) ∧
    (∃ m st2, RusqliteConnectionManager.new_with_flags_and_vfs p f v st = (m, st2)) ∧
    (f.testBit 0 = true → fs.contains p = false →
      ∃ e, ((RusqliteConnectionManager.new_with_flags p f st).1.connect
          (sqliteDriver fs registry) .runs
          (RusqliteConnectionManager.new_with_flags p f st).2).1
        = .error (.Rusqlite e)) := by
  refine ⟨⟨_, _, rfl⟩, ⟨_, _, rfl⟩, ⟨_, _, rfl⟩, ?_⟩
  intro hro habs
  obtain ⟨e, he⟩ := openByMode_sqlite_readonly_fails fs registry
    { mode := .WithFlags f, path := p } (by simpa [OpenMode.readOnly] using hro) habs
  exact ⟨e, connect_runs_error_of_open_error (sqliteDriver fs registry)
    (RusqliteConnectionManager.new_with_flags p f st).1
    (RusqliteConnectionManager.new_with_flags p f st).2 e
    (by rw [deref_new_with_flags]; exact he)⟩

/-- C10 witness: concrete construction always succeeds while connect on
the resulting read-only manager with a missing location fails with a
driver error. -/
theorem constructors_total_no_io_witness :
    ∃ e, ((RusqliteConnectionManager.new_with_flags "nope.db" 1 emptyStore).1.connect
        (sqliteDriver [] []) .runs
        (RusqliteConnectionManager.new_with_flags "nope.db" 1 emptyStore).2).1
      = .error (.Rusqlite e) :=
  (constructors_total_no_io "nope.db" 1 "unix" emptyStore [] []).2.2.2 rfl rfl

end BB8Rusqlite
